import Mathlib

/-!
Shallow embedding of the run-completion polling protocol and the chat UI
turn handling of `main.py` (Sea Level Rise AI Assistant).

The embedded functions are `retrieve_assistant_response` (main.py lines
160-178) and the per-turn transcript handling of `main` (lines 259-278).
Remote-service behaviour (the OpenAI client) is modelled as an oracle
`Client` giving, for each successive status poll, either a `Run` object or
a raised exception, and for each poll index the outcome of listing the
thread messages at that moment.
-/

namespace SLR

/-- Run status enum as documented by the remote service
(spec section 3; the code itself never reads this field). -/
inductive RunStatus where
  | queued
  | in_progress
  | completed
  | failed
  | cancelled
  | expired
deriving DecidableEq

/-- Terminal non-success statuses (spec: failed, cancelled, expired). -/
def isFailureStatus : RunStatus → Bool
  | RunStatus.failed => true
  | RunStatus.cancelled => true
  | RunStatus.expired => true
  | _ => false

/-- A run object as returned by `client.beta.threads.runs.retrieve`.
`completed_at` is a Unix timestamp or Python `None`, modelled as
`Option Int`. -/
structure Run where
  status : RunStatus
  created_at : Int
  completed_at : Option Int
deriving DecidableEq

/-- Python truthiness of `run.completed_at`: `None` and `0` are falsy,
any other integer is truthy. -/
def pyTruthy : Option Int → Bool
  | none => false
  | some n => n != 0

/-- The `.text` payload of a message content block. -/
structure TextValue where
  value : String
deriving DecidableEq

/-- One element of a message's `content` array. -/
structure ContentBlock where
  text : TextValue
deriving DecidableEq

/-- A thread message: `messages.data` elements. -/
structure Message where
  role : String
  content : List ContentBlock
deriving DecidableEq

/-- Result page of `client.beta.threads.messages.list`, whose `data` is
ordered most recent first per the remote contract. -/
structure MessagesPage where
  data : List Message
deriving DecidableEq

/-- Outcome of one `runs.retrieve` call: a run object, or a raised
exception carrying a message. -/
inductive PollResult where
  | ok (run : Run)
  | exn (msg : String)

/-- Oracle for the remote service as seen from inside the polling loop:
`polls n` is the outcome of the (n+1)-th status fetch, `listMessages n`
the outcome of listing messages right after the (n+1)-th fetch. -/
structure Client where
  polls : Nat → PollResult
  listMessages : Nat → Except String MessagesPage

/-- Observable side effects of the loop body: `logging.info` of the
elapsed-time message, `logging.error`, the waiting info log, and
`time.sleep`. -/
inductive Event where
  | logCompleted (formatted : String)
  | logError (msg : String)
  | logWaiting
  | sleep (seconds : Nat)
deriving DecidableEq

/-- Zero-padded two-digit rendering used by strftime fields. -/
def two_digits (n : Nat) : String :=
  if n < 10 then "0" ++ toString n else toString n

/-- Embedding of
`time.strftime("%H:%M:%S", time.gmtime(elapsed))` for a non-negative
elapsed number of seconds: hours wrap at 24. -/
def formatHMS (e : Nat) : String :=
  two_digits (e / 3600 % 24) ++ ":" ++ two_digits (e / 60 % 60) ++ ":" ++
    two_digits (e % 60)

/-- Result of one iteration of the `while True` body: return a response,
break out of the loop (the bare `except` path), or fall through to the
waiting log and the sleep. -/
inductive IterResult where
  | ret (response : String) (events : List Event)
  | brk (events : List Event)
  | cont (events : List Event)
deriving DecidableEq

/-- The body after a successful `runs.retrieve`:
`if run.completed_at:` log elapsed time, list messages, take
`messages.data[0].content[0].text.value` and return it; an indexing or
listing exception is caught by the same `except` and breaks; a falsy
`completed_at` falls through to the waiting log and the 5-second sleep. -/
def handleRun (run : Run) (lm : Except String MessagesPage) : IterResult :=
  if pyTruthy run.completed_at then
    let fmt := formatHMS (run.completed_at.getD 0 - run.created_at).toNat
    match lm with
    | Except.error msg => IterResult.brk [Event.logCompleted fmt, Event.logError msg]
    | Except.ok page =>
      match page.data with
      | [] => IterResult.brk [Event.logCompleted fmt, Event.logError "IndexError"]
      | m :: _ =>
        match m.content with
        | [] => IterResult.brk [Event.logCompleted fmt, Event.logError "IndexError"]
        | c :: _ => IterResult.ret c.text.value [Event.logCompleted fmt]
  else
    IterResult.cont [Event.logWaiting, Event.sleep 5]

/-- One iteration of the loop body at poll index `i`: a raised transport
exception on the status fetch is caught, logged and breaks the loop. -/
def iterate1 (client : Client) (i : Nat) : IterResult :=
  match client.polls i with
  | PollResult.exn msg => IterResult.brk [Event.logError msg]
  | PollResult.ok run => handleRun run (client.listMessages i)

/-- Termination behaviour of the loop: `returned r` is `return response`,
`broke` is falling off the function after `break` (Python returns `None`),
`running` means the loop had not yet terminated within the given fuel. -/
inductive LoopOutcome where
  | returned (response : String)
  | broke
  | running
deriving DecidableEq

/-- Fuel-indexed unrolling of the `while True:` loop of
`retrieve_assistant_response`, starting at poll index `i`, collecting the
emitted events in order. -/
def retrieveAux (client : Client) : Nat → Nat → LoopOutcome × List Event
  | 0, _ => (LoopOutcome.running, [])
  | fuel + 1, i =>
    match iterate1 client i with
    | IterResult.ret r evs => (LoopOutcome.returned r, evs)
    | IterResult.brk evs => (LoopOutcome.broke, evs)
    | IterResult.cont evs =>
      let next := retrieveAux client fuel (i + 1)
      (next.1, evs ++ next.2)

/-- `retrieve_assistant_response` (main.py lines 160-178), given enough
fuel to observe up to `fuel` polls. The first status fetch happens
immediately, before any sleep. -/
def retrieve_assistant_response (client : Client) (fuel : Nat) :
    LoopOutcome × List Event :=
  retrieveAux client fuel 0

/-- The Python return value of the function: `some (some r)` on
`return response`, `some none` when the loop broke (the function falls
off its end and returns `None`), `none` when it has not returned yet. -/
def pyReturn : LoopOutcome → Option (Option String)
  | LoopOutcome.returned r => some (some r)
  | LoopOutcome.broke => some none
  | LoopOutcome.running => none

/-- One entry of `st.session_state.messages`; `content` is `Option`
because the assistant entry stores the raw return value of
`retrieve_assistant_response`, which can be Python `None`. -/
structure ChatEntry where
  role : String
  content : Option String
deriving DecidableEq

/-- One user turn as processed by `main` (lines 259-278): a non-empty
input is appended as a user entry, then the run's resolution value is
appended as an assistant entry. When the loop has not resolved within the
fuel, the script is still blocked inside the loop, so only the user entry
is present. An empty input is ignored (`if user_message:`). -/
def processTurn (t : List ChatEntry) (msg : String) (client : Client)
    (fuel : Nat) : List ChatEntry :=
  if msg = "" then t
  else
    let t1 := t ++ [ChatEntry.mk "user" (some msg)]
    match (retrieve_assistant_response client fuel).1 with
    | LoopOutcome.returned r => t1 ++ [ChatEntry.mk "assistant" (some r)]
    | LoopOutcome.broke => t1 ++ [ChatEntry.mk "assistant" none]
    | LoopOutcome.running => t1

/-- One submitted turn: the user input together with the remote-service
behaviour observed by that turn's polling loop. -/
structure Turn where
  userMsg : String
  client : Client
  fuel : Nat

/-- The assistant-entry content a resolved turn stores: the reply on
success, `None` when the loop broke. -/
def replyOf (turn : Turn) : Option String :=
  match (retrieve_assistant_response turn.client turn.fuel).1 with
  | LoopOutcome.returned r => some r
  | _ => none

/-- Session-state transcript after processing a list of turns one at a
time, starting from transcript `t`. -/
def runSessionFrom (t : List ChatEntry) (turns : List Turn) : List ChatEntry :=
  turns.foldl (fun acc turn => processTurn acc turn.userMsg turn.client turn.fuel) t

/-- Transcript of a fresh session after the given turns. -/
def runSession (turns : List Turn) : List ChatEntry :=
  runSessionFrom [] turns

/-- Driver-level events of a session: appending the user message to the
thread, creating a run, and the resolution of that run's wait loop. -/
inductive DriverEvent where
  | submitMsg (text : String)
  | createRun (runId : Nat)
  | resolvedRun (runId : Nat)
deriving DecidableEq

/-- Driver event trace of a session: `main` handles each turn to
completion before the next rerun can process another input, and a wait
loop that never resolves blocks the session forever. Empty inputs emit
nothing. -/
def sessionTrace : Nat → List Turn → List DriverEvent
  | _, [] => []
  | i, turn :: rest =>
    if turn.userMsg = "" then sessionTrace i rest
    else
      DriverEvent.submitMsg turn.userMsg :: DriverEvent.createRun i ::
        (match (retrieve_assistant_response turn.client turn.fuel).1 with
         | LoopOutcome.running => []
         | _ => DriverEvent.resolvedRun i :: sessionTrace (i + 1) rest)

/-- Checks that every run creation happens while no run is outstanding,
tracking the number of outstanding runs. -/
def outstandingOk : Nat → List DriverEvent → Bool
  | _, [] => true
  | k, DriverEvent.createRun _ :: rest => decide (k = 0) && outstandingOk (k + 1) rest
  | k, DriverEvent.resolvedRun _ :: rest => outstandingOk (k - 1) rest
  | k, DriverEvent.submitMsg _ :: rest => outstandingOk k rest

/-- The run ids in creation order. -/
def createdIds : List DriverEvent → List Nat
  | [] => []
  | DriverEvent.createRun i :: rest => i :: createdIds rest
  | _ :: rest => createdIds rest

/-- Events of `n` successive waiting iterations. -/
def waitEvents : Nat → List Event
  | 0 => []
  | n + 1 => Event.logWaiting :: Event.sleep 5 :: waitEvents n

/-- Number of `sleep` events in a trace. -/
def sleepCount : List Event → Nat
  | [] => 0
  | Event.sleep _ :: rest => sleepCount rest + 1
  | _ :: rest => sleepCount rest

/-- Strict user/assistant alternation of a transcript. -/
def alternatingUA : List ChatEntry → Bool
  | [] => true
  | u :: a :: rest => decide (u.role = "user") && decide (a.role = "assistant") && alternatingUA rest
  | _ :: [] => false

/-! Concrete remote-service behaviours used as test fixtures. -/

/-- A run stuck in a terminal failure state: the service never sets
`completed_at` for failed runs. -/
def failedRun : Run :=
  { status := RunStatus.failed, created_at := 100, completed_at := none }

/-- A client whose run is failed on every poll. -/
def failedClient : Client :=
  { polls := fun _ => PollResult.ok failedRun
    listMessages := fun _ => Except.error "unused" }

/-- A client whose every status fetch raises a transport exception. -/
def exnClient : Client :=
  { polls := fun _ => PollResult.exn "connection reset"
    listMessages := fun _ => Except.error "unused" }

/-- A completed run with `created_at = 100` and `completed_at = 107`. -/
def okRun : Run :=
  { status := RunStatus.completed, created_at := 100, completed_at := some 107 }

/-- A message page whose most recent message carries one text block. -/
def okPage : MessagesPage :=
  { data := [ { role := "assistant"
                content := [ { text := { value := "Approximately 4.3 feet" } } ] } ] }

/-- A client whose run is already completed on the first poll. -/
def okClient : Client :=
  { polls := fun _ => PollResult.ok okRun
    listMessages := fun _ => Except.ok okPage }

/-- A run still in progress. -/
def busyRun : Run :=
  { status := RunStatus.in_progress, created_at := 100, completed_at := none }

/-- A client that reports in-progress on the first two polls and a
completed run afterwards. -/
def stagedClient : Client :=
  { polls := fun i => if i < 2 then PollResult.ok busyRun else PollResult.ok okRun
    listMessages := fun _ => Except.ok okPage }

/-- A client whose run completes on the first poll but whose message
listing then raises a transport exception. -/
def badListClient : Client :=
  { polls := fun _ => PollResult.ok okRun
    listMessages := fun _ => Except.error "network down" }

/-! Helper lemmas about the loop. -/

/-- Unfold one waiting iteration. -/
theorem retrieveAux_cont (client : Client) (fuel i : Nat) (run : Run)
    (hpoll : client.polls i = PollResult.ok run)
    (hfalse : pyTruthy run.completed_at = false) :
    retrieveAux client (fuel + 1) i =
      ((retrieveAux client fuel (i + 1)).1,
        Event.logWaiting :: Event.sleep 5 :: (retrieveAux client fuel (i + 1)).2) := by
  simp [retrieveAux, iterate1, hpoll, handleRun, hfalse]

/-- Skipping `i` waiting polls shifts the loop start and prepends the
waiting events. -/
theorem retrieveAux_skip (client : Client) :
    ∀ (i base fuel : Nat),
      (∀ j, j < i → ∃ run, client.polls (base + j) = PollResult.ok run ∧
        pyTruthy run.completed_at = false) →
      retrieveAux client (i + fuel) base =
        ((retrieveAux client fuel (base + i)).1,
          waitEvents i ++ (retrieveAux client fuel (base + i)).2) := by
  intro i
  induction i with
  | zero =>
    intro base fuel _
    simp [waitEvents]
  | succ n ih =>
    intro base fuel h
    obtain ⟨run, hpoll, hfalse⟩ := h 0 (Nat.succ_pos n)
    rw [Nat.add_zero] at hpoll
    have hstep : n + 1 + fuel = (n + fuel) + 1 := by omega
    rw [hstep, retrieveAux_cont client (n + fuel) base run hpoll hfalse]
    have h' : ∀ j, j < n → ∃ run, client.polls (base + 1 + j) = PollResult.ok run ∧
        pyTruthy run.completed_at = false := by
      intro j hj
      have := h (j + 1) (by omega)
      have harith : base + (j + 1) = base + 1 + j := by omega
      rwa [harith] at this
    rw [ih (base + 1) fuel h']
    have harith2 : base + (n + 1) = base + 1 + n := by omega
    simp [waitEvents, harith2]

/-- A client that never reports a truthy `completed_at` keeps the loop
waiting for ever: every amount of fuel is exhausted in waiting
iterations. -/
theorem retrieveAux_stuck (client : Client)
    (h : ∀ i, ∃ run, client.polls i = PollResult.ok run ∧
      pyTruthy run.completed_at = false) :
    ∀ fuel i, retrieveAux client fuel i = (LoopOutcome.running, waitEvents fuel) := by
  intro fuel
  induction fuel with
  | zero => intro i; simp [retrieveAux, waitEvents]
  | succ n ih =>
    intro i
    obtain ⟨run, hpoll, hfalse⟩ := h i
    rw [retrieveAux_cont client n i run hpoll hfalse, ih (i + 1)]
    simp [waitEvents]

/-- Waiting events contain exactly one sleep per iteration. -/
theorem sleepCount_waitEvents : ∀ n, sleepCount (waitEvents n) = n := by
  intro n
  induction n with
  | zero => rfl
  | succ k ih => simp [waitEvents, sleepCount, ih]

/-- Processing one turn only appends to the existing transcript. -/
theorem processTurn_append (t : List ChatEntry) (msg : String) (client : Client)
    (fuel : Nat) :
    processTurn t msg client fuel = t ++ processTurn [] msg client fuel := by
  by_cases hmsg : msg = ""
  · simp [processTurn, hmsg]
  · simp only [processTurn, hmsg, if_false]
    cases (retrieve_assistant_response client fuel).1 <;> simp

/-- Processing a list of turns only appends to the existing transcript. -/
theorem runSessionFrom_append (turns : List Turn) :
    ∀ t, runSessionFrom t turns = t ++ runSession turns := by
  induction turns with
  | nil => intro t; simp [runSessionFrom, runSession]
  | cons turn rest ih =>
    intro t
    show runSessionFrom (processTurn t turn.userMsg turn.client turn.fuel) rest = _
    rw [ih, processTurn_append, List.append_assoc]
    congr 1
    show _ = runSessionFrom (processTurn [] turn.userMsg turn.client turn.fuel) rest
    rw [ih (processTurn [] turn.userMsg turn.client turn.fuel)]

/-- A run whose `completed_at` first turns truthy at poll `i`, when the
message listing succeeds with a non-empty most-recent message, makes the
loop return that message's first text payload, after logging the elapsed
time once. -/
theorem retrieveAux_completes (client : Client) (i fuel : Nat) (run : Run)
    (page : MessagesPage) (m : Message) (rest : List Message) (c : ContentBlock)
    (cs : List ContentBlock)
    (hpre : ∀ j, j < i → ∃ r, client.polls j = PollResult.ok r ∧
      pyTruthy r.completed_at = false)
    (hpoll : client.polls i = PollResult.ok run)
    (hc : pyTruthy run.completed_at = true)
    (hlm : client.listMessages i = Except.ok page)
    (hdata : page.data = m :: rest)
    (hcontent : m.content = c :: cs)
    (hfuel : i < fuel) :
    retrieve_assistant_response client fuel =
      (LoopOutcome.returned c.text.value,
        waitEvents i ++ [Event.logCompleted
          (formatHMS (run.completed_at.getD 0 - run.created_at).toNat)]) := by
  have hk : fuel = i + (fuel - i - 1 + 1) := by omega
  have hpre' : ∀ j, j < i → ∃ r, client.polls (0 + j) = PollResult.ok r ∧
      pyTruthy r.completed_at = false := by simpa using hpre
  have hskip := retrieveAux_skip client i 0 (fuel - i - 1 + 1) hpre'
  have hone : retrieveAux client (fuel - i - 1 + 1) (0 + i) =
      (LoopOutcome.returned c.text.value,
        [Event.logCompleted
          (formatHMS (run.completed_at.getD 0 - run.created_at).toNat)]) := by
    simp [retrieveAux, iterate1, hpoll, handleRun, hc, hlm, hdata, hcontent]
  show retrieveAux client fuel 0 = _
  rw [hk, hskip, hone]

/-! Claim C1. -/

/-- Claim C1, counterexample: a run stuck in the terminal failure state
`failed` (with `completed_at` unset, as the service leaves it for failed
runs) does not make `retrieve_assistant_response` surface any error;
after three polls the loop is still running and has slept three times,
i.e. it continues to poll. -/
theorem c1_counterexample :
    isFailureStatus failedRun.status = true ∧
    failedClient.polls 0 = PollResult.ok failedRun ∧
    (retrieve_assistant_response failedClient 3).1 = LoopOutcome.running ∧
    (retrieve_assistant_response failedClient 3).2 =
      [Event.logWaiting, Event.sleep 5, Event.logWaiting, Event.sleep 5,
       Event.logWaiting, Event.sleep 5] :=
  ⟨rfl, rfl, rfl, rfl⟩

/-- Claim C1, amended: `retrieve_assistant_response` never inspects the
run's status and raises no RunFailedError; a run in a terminal failure
state whose `completed_at` stays unset keeps the loop polling for any
number of polls, neither returning a reply nor surfacing an error. -/
theorem c1_failure_state_keeps_polling (client : Client)
    (h : ∀ i, ∃ run, client.polls i = PollResult.ok run ∧
      isFailureStatus run.status = true ∧ pyTruthy run.completed_at = false) :
    ∀ fuel, (retrieve_assistant_response client fuel).1 = LoopOutcome.running ∧
      pyReturn (retrieve_assistant_response client fuel).1 = none := by
  intro fuel
  have h' : ∀ i, ∃ run, client.polls i = PollResult.ok run ∧
      pyTruthy run.completed_at = false := by
    intro i
    obtain ⟨run, h1, _, h3⟩ := h i
    exact ⟨run, h1, h3⟩
  rw [retrieve_assistant_response, retrieveAux_stuck client h' fuel 0]
  exact ⟨rfl, rfl⟩

/-- Claim C1, witness: the amended theorem applied to the concrete failed
client at fuel 2. -/
theorem c1_witness :
    (retrieve_assistant_response failedClient 2).1 = LoopOutcome.running ∧
    pyReturn (retrieve_assistant_response failedClient 2).1 = none :=
  c1_failure_state_keeps_polling failedClient
    (fun _ => ⟨failedRun, rfl, rfl, rfl⟩) 2

/-! Claim C2. -/

/-- Claim C2, counterexample: a transport exception on the first status
poll makes `retrieve_assistant_response` break out of the loop and return
Python `None` normally (`pyReturn` is `some none`): the failure is logged
and swallowed, not surfaced to the caller as a raised TransportError. -/
theorem c2_counterexample :
    retrieve_assistant_response exnClient 5 =
      (LoopOutcome.broke, [Event.logError "connection reset"]) ∧
    pyReturn (retrieve_assistant_response exnClient 5).1 = some none :=
  ⟨rfl, rfl⟩

/-- Claim C2, amended: a transport exception raised on status poll `i`
(after `i` waiting polls) aborts the wait loop immediately with no retry:
the trace ends at the error log, with no further sleep or poll, and the
function returns `None` to the caller instead of raising. -/
theorem c2_transport_exception_swallowed (client : Client) (msg : String)
    (i fuel : Nat)
    (hpre : ∀ j, j < i → ∃ run, client.polls j = PollResult.ok run ∧
      pyTruthy run.completed_at = false)
    (hexn : client.polls i = PollResult.exn msg)
    (hfuel : i < fuel) :
    retrieve_assistant_response client fuel =
      (LoopOutcome.broke, waitEvents i ++ [Event.logError msg]) ∧
    pyReturn (retrieve_assistant_response client fuel).1 = some none := by
  have hk : fuel = i + (fuel - i - 1 + 1) := by omega
  have hpre' : ∀ j, j < i → ∃ run, client.polls (0 + j) = PollResult.ok run ∧
      pyTruthy run.completed_at = false := by simpa using hpre
  have hskip := retrieveAux_skip client i 0 (fuel - i - 1 + 1) hpre'
  have hone : retrieveAux client (fuel - i - 1 + 1) (0 + i) =
      (LoopOutcome.broke, [Event.logError msg]) := by
    simp [retrieveAux, iterate1, hexn]
  constructor
  · show retrieveAux client fuel 0 = _
    rw [hk, hskip, hone]
  · show pyReturn (retrieveAux client fuel 0).1 = some none
    rw [hk, hskip, hone]
    rfl

/-- Claim C2, witness: the amended theorem at the concrete client whose
first poll raises. -/
theorem c2_witness :
    retrieve_assistant_response exnClient 4 =
      (LoopOutcome.broke, waitEvents 0 ++ [Event.logError "connection reset"]) ∧
    pyReturn (retrieve_assistant_response exnClient 4).1 = some none :=
  c2_transport_exception_swallowed exnClient "connection reset" 0 4
    (fun j hj => absurd hj (by omega)) rfl (by omega)

/-! Claim C5. -/

/-- Claim C5: every sleep the loop ever performs is exactly 5 seconds (a
fixed interval, no backoff), and for a run that never reaches a truthy
`completed_at` the loop exhausts any amount of fuel still running, having
slept once per poll: there is no retry bound or timeout and the function
never returns. -/
theorem c5_fixed_interval_no_bound (client : Client) :
    (∀ fuel i s, Event.sleep s ∈ (retrieveAux client fuel i).2 → s = 5) ∧
    ((∀ i, ∃ run, client.polls i = PollResult.ok run ∧
        pyTruthy run.completed_at = false) →
      ∀ fuel, (retrieve_assistant_response client fuel).1 = LoopOutcome.running ∧
        sleepCount (retrieve_assistant_response client fuel).2 = fuel) := by
  constructor
  · intro fuel
    induction fuel with
    | zero =>
      intro i s h
      simp [retrieveAux] at h
    | succ n ih =>
      intro i s h
      cases hp : client.polls i with
      | exn msg =>
        simp [retrieveAux, iterate1, hp] at h
      | ok run =>
        by_cases hc : pyTruthy run.completed_at
        · cases hlm : client.listMessages i with
          | error m =>
            simp [retrieveAux, iterate1, hp, handleRun, hc, hlm] at h
          | ok page =>
            cases hd : page.data with
            | nil =>
              simp [retrieveAux, iterate1, hp, handleRun, hc, hlm, hd] at h
            | cons m ms =>
              cases hct : m.content with
              | nil =>
                simp [retrieveAux, iterate1, hp, handleRun, hc, hlm, hd, hct] at h
              | cons c cs =>
                simp [retrieveAux, iterate1, hp, handleRun, hc, hlm, hd, hct] at h
        · simp [retrieveAux, iterate1, hp, handleRun, hc] at h
          rcases h with h | h
          · exact h
          · exact ih (i + 1) s h
  · intro h fuel
    rw [retrieve_assistant_response, retrieveAux_stuck client h fuel 0]
    exact ⟨rfl, sleepCount_waitEvents fuel⟩

/-- Claim C5, witness: both parts of the theorem at the concrete stuck
client with fuel 4. -/
theorem c5_witness :
    5 = 5 ∧
    ((retrieve_assistant_response failedClient 4).1 = LoopOutcome.running ∧
      sleepCount (retrieve_assistant_response failedClient 4).2 = 4) :=
  ⟨(c5_fixed_interval_no_bound failedClient).1 4 0 5 (by decide),
   (c5_fixed_interval_no_bound failedClient).2 (fun _ => ⟨failedRun, rfl, rfl⟩) 4⟩

/-! Claim C3. -/

/-- Claim C3: when a run reaches completion (a truthy `completed_at` at
poll `i`) and the message listing succeeds, the function fetches the
session's message list and returns the primary text payload
(`content[0].text.value`) of the single most recent message
(`data[0]`, the list being ordered most recent first). -/
theorem c3_completed_returns_most_recent (client : Client) (i fuel : Nat)
    (run : Run) (page : MessagesPage) (m : Message) (rest : List Message)
    (c : ContentBlock) (cs : List ContentBlock)
    (hpre : ∀ j, j < i → ∃ r, client.polls j = PollResult.ok r ∧
      pyTruthy r.completed_at = false)
    (hpoll : client.polls i = PollResult.ok run)
    (hc : pyTruthy run.completed_at = true)
    (hlm : client.listMessages i = Except.ok page)
    (hdata : page.data = m :: rest)
    (hcontent : m.content = c :: cs)
    (hfuel : i < fuel) :
    (retrieve_assistant_response client fuel).1 =
      LoopOutcome.returned c.text.value ∧
    pyReturn (retrieve_assistant_response client fuel).1 =
      some (some c.text.value) := by
  rw [retrieveAux_completes client i fuel run page m rest c cs hpre hpoll hc hlm
    hdata hcontent hfuel]
  exact ⟨rfl, rfl⟩

/-- Claim C3, witness: a run that is in progress for two polls and then
completed, with the reply as the most recent message. -/
theorem c3_witness :
    (retrieve_assistant_response stagedClient 3).1 =
      LoopOutcome.returned "Approximately 4.3 feet" ∧
    pyReturn (retrieve_assistant_response stagedClient 3).1 =
      some (some "Approximately 4.3 feet") :=
  c3_completed_returns_most_recent stagedClient 2 3 okRun okPage
    { role := "assistant", content := [ { text := { value := "Approximately 4.3 feet" } } ] }
    [] { text := { value := "Approximately 4.3 feet" } } []
    (fun j hj => ⟨busyRun, by simp [stagedClient, hj], rfl⟩)
    (by simp [stagedClient]) rfl rfl rfl rfl (by omega)

/-! Claim C4. -/

/-- Claim C4, counterexample: a run completed at the first poll
(`created_at = 100`, `completed_at = 107`) whose subsequent message
listing raises a transport exception: the function fails (returns Python
`None`), yet the elapsed-time log of 00:00:07 was emitted — an
elapsed-time log does occur on this failure path. -/
theorem c4_counterexample :
    (retrieve_assistant_response badListClient 1).1 = LoopOutcome.broke ∧
    pyReturn (retrieve_assistant_response badListClient 1).1 = some none ∧
    (retrieve_assistant_response badListClient 1).2 =
      [Event.logCompleted "00:00:07", Event.logError "network down"] :=
  ⟨rfl, rfl, rfl⟩

/-- Claim C4, amended: on every successful completion the function logs
exactly one elapsed-time message, `completed_at - created_at` formatted
HH:MM:SS; conversely an elapsed-time log is emitted exactly when some
poll observed a truthy `completed_at` — which includes the failure path
where the message fetch after completion raises, and excludes every run
of the loop in which no poll observed completion. -/
theorem c4_elapsed_logging (client : Client) :
    (∀ i fuel run page m rest c cs,
      (∀ j, j < i → ∃ r, client.polls j = PollResult.ok r ∧
        pyTruthy r.completed_at = false) →
      client.polls i = PollResult.ok run →
      pyTruthy run.completed_at = true →
      client.listMessages i = Except.ok page →
      page.data = m :: rest → m.content = c :: cs → i < fuel →
      (retrieve_assistant_response client fuel).2 =
        waitEvents i ++ [Event.logCompleted
          (formatHMS (run.completed_at.getD 0 - run.created_at).toNat)]) ∧
    (∀ fuel i fmt, Event.logCompleted fmt ∈ (retrieveAux client fuel i).2 →
      ∃ j run, client.polls j = PollResult.ok run ∧
        pyTruthy run.completed_at = true ∧
        fmt = formatHMS (run.completed_at.getD 0 - run.created_at).toNat) := by
  constructor
  · intro i fuel run page m rest c cs hpre hpoll hc hlm hdata hcontent hfuel
    rw [retrieveAux_completes client i fuel run page m rest c cs hpre hpoll hc hlm
      hdata hcontent hfuel]
  · intro fuel
    induction fuel with
    | zero =>
      intro i fmt h
      simp [retrieveAux] at h
    | succ n ih =>
      intro i fmt h
      cases hp : client.polls i with
      | exn msg =>
        simp [retrieveAux, iterate1, hp] at h
      | ok run =>
        by_cases hc : pyTruthy run.completed_at
        · cases hlm : client.listMessages i with
          | error m =>
            simp [retrieveAux, iterate1, hp, handleRun, hc, hlm] at h
            exact ⟨i, run, hp, hc, h⟩
          | ok page =>
            cases hd : page.data with
            | nil =>
              simp [retrieveAux, iterate1, hp, handleRun, hc, hlm, hd] at h
              exact ⟨i, run, hp, hc, h⟩
            | cons m ms =>
              cases hct : m.content with
              | nil =>
                simp [retrieveAux, iterate1, hp, handleRun, hc, hlm, hd, hct] at h
                exact ⟨i, run, hp, hc, h⟩
              | cons c cs =>
                simp [retrieveAux, iterate1, hp, handleRun, hc, hlm, hd, hct] at h
                exact ⟨i, run, hp, hc, h⟩
        · simp [retrieveAux, iterate1, hp, handleRun, hc] at h
          exact ih (i + 1) fmt h

/-- Claim C4, witness: both parts of the amended theorem at the staged
client (elapsed 7 seconds) and at a concrete membership fact. -/
theorem c4_witness :
    (retrieve_assistant_response stagedClient 3).2 =
      waitEvents 2 ++ [Event.logCompleted
        (formatHMS ((okRun.completed_at.getD 0) - okRun.created_at).toNat)] ∧
    ∃ j run, stagedClient.polls j = PollResult.ok run ∧
      pyTruthy run.completed_at = true ∧
      "00:00:07" = formatHMS (run.completed_at.getD 0 - run.created_at).toNat :=
  ⟨(c4_elapsed_logging stagedClient).1 2 3 okRun okPage
      { role := "assistant", content := [ { text := { value := "Approximately 4.3 feet" } } ] }
      [] { text := { value := "Approximately 4.3 feet" } } []
      (fun j hj => ⟨busyRun, by simp [stagedClient, hj], rfl⟩)
      (by simp [stagedClient]) rfl rfl rfl rfl (by omega),
   (c4_elapsed_logging stagedClient).2 3 0 "00:00:07" (by decide)⟩

/-! Claim C10. -/

/-- Claim C10: completion is decided solely by the truthiness of
`completed_at` — the loop body is insensitive to the status field, `None`
and `0` are both falsy and keep it polling whatever the status, the first
status fetch happens with no preceding sleep, and a run whose
`completed_at` is already truthy on the first fetch returns without any
sleep at all. -/
theorem c10_truthiness_only :
    (∀ run1 run2 : Run, ∀ lm, run1.created_at = run2.created_at →
      run1.completed_at = run2.completed_at →
      handleRun run1 lm = handleRun run2 lm) ∧
    pyTruthy none = false ∧
    pyTruthy (some 0) = false ∧
    (∀ (client : Client) (run : Run) (page : MessagesPage) (m : Message)
        (rest : List Message) (c : ContentBlock) (cs : List ContentBlock)
        (fuel : Nat),
      client.polls 0 = PollResult.ok run →
      pyTruthy run.completed_at = true →
      client.listMessages 0 = Except.ok page →
      page.data = m :: rest → m.content = c :: cs →
      (retrieve_assistant_response client (fuel + 1)).1 =
        LoopOutcome.returned c.text.value ∧
      (∀ s, Event.sleep s ∉ (retrieve_assistant_response client (fuel + 1)).2)) ∧
    (∀ (client : Client) (i : Nat) (run : Run),
      client.polls i = PollResult.ok run →
      pyTruthy run.completed_at = false →
      iterate1 client i = IterResult.cont [Event.logWaiting, Event.sleep 5]) := by
  refine ⟨?_, rfl, rfl, ?_, ?_⟩
  · intro run1 run2 lm h1 h2
    cases run1 with
    | mk s1 ca1 co1 =>
      cases run2 with
      | mk s2 ca2 co2 =>
        simp only at h1 h2
        subst h1
        subst h2
        simp [handleRun]
  · intro client run page m rest c cs fuel hpoll hc hlm hdata hcontent
    have := retrieveAux_completes client 0 (fuel + 1) run page m rest c cs
      (fun j hj => absurd hj (by omega)) hpoll hc hlm hdata hcontent (by omega)
    rw [this]
    constructor
    · rfl
    · intro s
      simp [waitEvents]
  · intro client i run hpoll hfalse
    simp [iterate1, hpoll, handleRun, hfalse]

/-- Claim C10, witness: the status field does not matter for a completed
run, a first-poll completion returns with no sleep event, and a falsy
`completed_at` continues the loop. -/
theorem c10_witness :
    handleRun { status := RunStatus.failed, created_at := 100, completed_at := some 107 }
        (Except.ok okPage) =
      handleRun okRun (Except.ok okPage) ∧
    (retrieve_assistant_response okClient 1).1 =
      LoopOutcome.returned "Approximately 4.3 feet" ∧
    Event.sleep 5 ∉ (retrieve_assistant_response okClient 1).2 ∧
    iterate1 failedClient 7 = IterResult.cont [Event.logWaiting, Event.sleep 5] :=
  ⟨c10_truthiness_only.1 _ okRun (Except.ok okPage) rfl rfl,
   (c10_truthiness_only.2.2.2.1 okClient okRun okPage
      { role := "assistant", content := [ { text := { value := "Approximately 4.3 feet" } } ] }
      [] { text := { value := "Approximately 4.3 feet" } } [] 0
      rfl rfl rfl rfl rfl).1,
   (c10_truthiness_only.2.2.2.1 okClient okRun okPage
      { role := "assistant", content := [ { text := { value := "Approximately 4.3 feet" } } ] }
      [] { text := { value := "Approximately 4.3 feet" } } [] 0
      rfl rfl rfl rfl rfl).2 5,
   c10_truthiness_only.2.2.2.2 failedClient 7 failedRun rfl rfl⟩

/-! Transcript shape helpers. -/

/-- The two entries a resolved non-empty turn appends. -/
def turnEntries (turn : Turn) : List ChatEntry :=
  [ChatEntry.mk "user" (some turn.userMsg), ChatEntry.mk "assistant" (replyOf turn)]

/-- The transcript a list of resolved non-empty turns builds. -/
def expectedTranscript : List Turn → List ChatEntry
  | [] => []
  | turn :: rest => turnEntries turn ++ expectedTranscript rest

/-- A resolved non-empty turn starting from an empty transcript appends
exactly its two entries. -/
theorem processTurn_resolved (turn : Turn) (hmsg : turn.userMsg ≠ "")
    (hres : (retrieve_assistant_response turn.client turn.fuel).1 ≠
      LoopOutcome.running) :
    processTurn [] turn.userMsg turn.client turn.fuel = turnEntries turn := by
  simp only [processTurn, hmsg, if_false]
  cases hout : (retrieve_assistant_response turn.client turn.fuel).1 with
  | returned r => simp [turnEntries, replyOf, hout]
  | broke => simp [turnEntries, replyOf, hout]
  | running => exact absurd hout hres

/-- The session transcript of resolved non-empty turns is exactly the
expected one. -/
theorem runSession_shape (turns : List Turn)
    (h : ∀ turn ∈ turns, turn.userMsg ≠ "" ∧
      (retrieve_assistant_response turn.client turn.fuel).1 ≠
        LoopOutcome.running) :
    runSession turns = expectedTranscript turns := by
  induction turns with
  | nil => rfl
  | cons turn rest ih =>
    have hturn := h turn (List.mem_cons_self turn rest)
    have hrest : ∀ t ∈ rest, t.userMsg ≠ "" ∧
        (retrieve_assistant_response t.client t.fuel).1 ≠ LoopOutcome.running :=
      fun t ht => h t (List.mem_cons_of_mem turn ht)
    show runSessionFrom (processTurn [] turn.userMsg turn.client turn.fuel) rest = _
    rw [runSessionFrom_append, ih hrest,
      processTurn_resolved turn hturn.1 hturn.2]
    rfl

/-- The expected transcript has two entries per turn. -/
theorem expectedTranscript_length (turns : List Turn) :
    (expectedTranscript turns).length = 2 * turns.length := by
  induction turns with
  | nil => rfl
  | cons turn rest ih =>
    simp [expectedTranscript, turnEntries, ih]
    omega

/-- The expected transcript alternates user/assistant strictly. -/
theorem expectedTranscript_alternating (turns : List Turn) :
    alternatingUA (expectedTranscript turns) = true := by
  induction turns with
  | nil => rfl
  | cons turn rest ih =>
    simp [expectedTranscript, turnEntries, alternatingUA, ih]

/-! Claim C6. -/

/-- Claim C6, counterexample: one non-empty turn whose polling loop
breaks on a transport exception ends with an assistant entry whose
content is Python `None` — not a reply and not a visible error notice. -/
theorem c6_counterexample :
    runSession [ { userMsg := "hi", client := exnClient, fuel := 5 } ] =
      [ChatEntry.mk "user" (some "hi"), ChatEntry.mk "assistant" none] ∧
    ¬ (∀ e ∈ runSession [ { userMsg := "hi", client := exnClient, fuel := 5 } ],
        e.content.isSome = true) := by
  exact ⟨rfl, by decide⟩

/-- Claim C6, amended: after N non-empty turns whose runs each resolve,
the transcript has exactly 2N entries in strict user/assistant
alternation, each turn contributing the echoed user input followed by an
assistant entry holding the driver's raw return value — the reply on
success, but Python `None` (not an error notice) when the wait loop broke
on an exception. -/
theorem c6_transcript_shape (turns : List Turn)
    (h : ∀ turn ∈ turns, turn.userMsg ≠ "" ∧
      (retrieve_assistant_response turn.client turn.fuel).1 ≠
        LoopOutcome.running) :
    runSession turns = expectedTranscript turns ∧
    (runSession turns).length = 2 * turns.length ∧
    alternatingUA (runSession turns) = true := by
  have hshape := runSession_shape turns h
  refine ⟨hshape, ?_, ?_⟩
  · rw [hshape, expectedTranscript_length]
  · rw [hshape]
    exact expectedTranscript_alternating turns

/-- Claim C6, witness: a two-turn session, one replied turn and one turn
broken by a transport exception. -/
theorem c6_witness :
    runSession [ { userMsg := "hello", client := okClient, fuel := 1 },
                 { userMsg := "again", client := exnClient, fuel := 2 } ] =
      expectedTranscript
        [ { userMsg := "hello", client := okClient, fuel := 1 },
          { userMsg := "again", client := exnClient, fuel := 2 } ] ∧
    (runSession [ { userMsg := "hello", client := okClient, fuel := 1 },
                  { userMsg := "again", client := exnClient, fuel := 2 } ]).length =
      2 * 2 ∧
    alternatingUA
      (runSession [ { userMsg := "hello", client := okClient, fuel := 1 },
                    { userMsg := "again", client := exnClient, fuel := 2 } ]) = true :=
  c6_transcript_shape
    [ { userMsg := "hello", client := okClient, fuel := 1 },
      { userMsg := "again", client := exnClient, fuel := 2 } ]
    (by
      intro turn ht
      simp only [List.mem_cons, List.mem_singleton] at ht
      rcases ht with h1 | h1 | h1
      · subst h1; exact ⟨by decide, by decide⟩
      · subst h1; exact ⟨by decide, by decide⟩
      · cases h1)

/-! Claim C7. -/

/-- Claim C7: in the driver trace of any session, every run creation
happens while no run is outstanding (the previous run's wait has
resolved), and the created run ids form the consecutive sequence of turn
indices: turns are processed strictly in submission order. -/
theorem c7_single_outstanding_run (turns : List Turn) :
    (∀ i, outstandingOk 0 (sessionTrace i turns) = true) ∧
    (∀ i, ∃ n, createdIds (sessionTrace i turns) = List.range' i n) := by
  induction turns with
  | nil => exact ⟨fun _ => rfl, fun i => ⟨0, rfl⟩⟩
  | cons turn rest ih =>
    constructor
    · intro i
      by_cases hmsg : turn.userMsg = ""
      · simp only [sessionTrace, hmsg, if_true]
        exact ih.1 i
      · simp only [sessionTrace, hmsg, if_false]
        cases hout : (retrieve_assistant_response turn.client turn.fuel).1 with
        | running => simp [outstandingOk]
        | returned r =>
          simp [outstandingOk]
          exact ih.1 (i + 1)
        | broke =>
          simp [outstandingOk]
          exact ih.1 (i + 1)
    · intro i
      by_cases hmsg : turn.userMsg = ""
      · simp only [sessionTrace, hmsg, if_true]
        exact ih.2 i
      · simp only [sessionTrace, hmsg, if_false]
        cases hout : (retrieve_assistant_response turn.client turn.fuel).1 with
        | running =>
          exact ⟨1, by simp [createdIds, List.range']⟩
        | returned r =>
          obtain ⟨n, hn⟩ := ih.2 (i + 1)
          exact ⟨n + 1, by simp [createdIds, hn, List.range']⟩
        | broke =>
          obtain ⟨n, hn⟩ := ih.2 (i + 1)
          exact ⟨n + 1, by simp [createdIds, hn, List.range']⟩

/-! Claim C8. -/

/-- Claim C8: transcript processing is pure append — after any further
turns the previously stored entries are still there, unchanged and in
their original order, as a prefix of the new transcript. -/
theorem c8_transcript_append_only (t : List ChatEntry) (turns : List Turn) :
    (runSessionFrom t turns).take t.length = t ∧
    ∃ rest, runSessionFrom t turns = t ++ rest := by
  refine ⟨?_, runSession turns, runSessionFrom_append turns t⟩
  rw [runSessionFrom_append]
  exact List.take_left t (runSession turns)

/-! Claim C9. -/

/-- Claim C9: when the polling loop breaks on an exception, the function
returns Python `None`, and the UI still appends an assistant entry whose
content is that `None` — neither a reply nor an error notice. -/
theorem c9_broken_loop_appends_none (t : List ChatEntry) (msg : String)
    (client : Client) (fuel : Nat) (hmsg : msg ≠ "")
    (hbroke : (retrieve_assistant_response client fuel).1 = LoopOutcome.broke) :
    pyReturn (retrieve_assistant_response client fuel).1 = some none ∧
    processTurn t msg client fuel =
      t ++ [ChatEntry.mk "user" (some msg), ChatEntry.mk "assistant" none] := by
  constructor
  · rw [hbroke]
    rfl
  · simp only [processTurn, hmsg, if_false]
    rw [hbroke]
    simp

/-- Claim C9, witness: the theorem at the concrete client whose first
poll raises a transport exception. -/
theorem c9_witness :
    pyReturn (retrieve_assistant_response exnClient 3).1 = some none ∧
    processTurn [] "hi" exnClient 3 =
      [] ++ [ChatEntry.mk "user" (some "hi"), ChatEntry.mk "assistant" none] :=
  c9_broken_loop_appends_none [] "hi" exnClient 3 (by decide) rfl

end SLR
